import Mathlib

/-!
Verification of the Tines MCP server wrapper layer (src/main.py).

The development shallowly embeds the request-building and
response-normalization layer of the server:

* JSON values are modelled by the inductive type JsonValue; Python dicts
  built by sequential conditional insertion are modelled as ordered
  association lists.
* Each wrapper's payload construction (the Parameter Mapper) is a pure
  function from its optional arguments to the outgoing body or query.
  Python `is not None` checks are embedded through the opt* helpers and
  Python truthiness checks (`if x:`) through the *Truthy helpers, exactly
  as they appear per field in the source.
* The Request Executor (make_request) is embedded in two parts: the URL
  construction over character lists (Python rstrip/lstrip strip every
  matching character from the respective end), and the response handling
  over an abstract response (status code plus body, where the body is
  either empty or well-formed JSON; `response.json()` parses well-formed
  JSON and raises on an empty body).
* The multi-step workflows (create_story_draft, connect_actions) are
  embedded against an oracle assigning a remote response to each call in
  sequence; each returns its result together with the list of HTTP
  requests it issued, in order.
-/

/-- JSON value: the data exchanged with the remote service. Objects are
ordered association lists, mirroring Python dict insertion order. -/
inductive JsonValue where
  | jnull
  | jbool (b : Bool)
  | jnum (n : Int)
  | jstr (s : String)
  | jarr (xs : List JsonValue)
  | jobj (fields : List (String × JsonValue))

open JsonValue

/-- Lookup of a key in an ordered association list, as Python dict
subscripting / dict.get does (first binding wins; later duplicates are
shadowed, as in a Python dict there are none). -/
def dictGet (fs : List (String × JsonValue)) (key : String) : Option JsonValue :=
  match fs.find? (fun p => p.1 == key) with
  | some p => some p.2
  | none => none

/-- One HTTP request as issued through make_request: method, endpoint and
optional JSON body. -/
structure Request where
  method : String
  endpoint : String
  body : Option (List (String × JsonValue))

/-- Errors surfaced by make_request: an HTTP error status raised by
raise_for_status, or the JSON decode error raised by response.json() on a
body that is not well-formed JSON (both propagate to the caller,
src/main.py lines 89-103). -/
inductive ReqError where
  | httpError (status : Nat)
  | jsonDecodeError
  deriving DecidableEq

/-- Response body as sent by the remote service: either empty (as on a
204 deletion response) or the text of a well-formed JSON document. -/
inductive RespBody where
  | empty
  | json (v : JsonValue)

/-- Embedding of response.json(): parsing the body text succeeds exactly
on a well-formed JSON document and fails on an empty body (json.loads of
an empty string raises). -/
def parse_json_body : RespBody → Option JsonValue
  | RespBody.empty => none
  | RespBody.json v => some v

/-- Response handling of make_request (src/main.py lines 89-103):
response.raise_for_status() raises for any 4xx/5xx status, which
make_request logs and re-raises; otherwise the parsed JSON body is
returned unchanged, and a parse failure (empty body) is raised as a
RequestException. -/
def make_request_response (status : Nat) (body : RespBody) : Except ReqError JsonValue :=
  if 400 ≤ status ∧ status < 600 then Except.error (ReqError.httpError status)
  else
    match parse_json_body body with
    | some v => Except.ok v
    | none => Except.error ReqError.jsonDecodeError

/-- Python str.lstrip applied with the single character slash: drops every
leading slash. -/
def pyLstripSlash (s : List Char) : List Char := s.dropWhile (· == '/')

/-- Python str.rstrip applied with the single character slash: drops every
trailing slash. -/
def pyRstripSlash (s : List Char) : List Char := (s.reverse.dropWhile (· == '/')).reverse

/-- URL construction of make_request (src/main.py line 56): the base URL
with all trailing slashes stripped, a single slash, then the endpoint with
all leading slashes stripped. -/
def make_request_url (base endpoint : List Char) : List Char :=
  pyRstripSlash base ++ '/' :: pyLstripSlash endpoint

/-- Modelled from the spec for comparison with make_request_url: strip
exactly one leading slash from the endpoint, when one is present. -/
def spec_strip_one_leading (s : List Char) : List Char :=
  match s with
  | c :: rest => if c == '/' then rest else c :: rest
  | [] => []

/-- Modelled from the spec for comparison with make_request_url: strip
exactly one trailing slash from the base, when one is present. -/
def spec_strip_one_trailing (s : List Char) : List Char :=
  if s.getLast? = some '/' then s.dropLast else s

/-- Modelled from the spec for comparison with make_request_url: join the
base with exactly one trailing slash stripped and the endpoint with
exactly one leading slash stripped. -/
def spec_url (base endpoint : List Char) : List Char :=
  spec_strip_one_trailing base ++ '/' :: spec_strip_one_leading endpoint

/-- Field included exactly when the argument is not None (Python
`if x is not None:`), for a string-valued field. -/
def optStr (key : String) : Option String → List (String × JsonValue)
  | some s => [(key, jstr s)]
  | none => []

/-- Field included exactly when the argument is not None, for an
integer-valued field. -/
def optInt (key : String) : Option Int → List (String × JsonValue)
  | some n => [(key, jnum n)]
  | none => []

/-- Field included exactly when the argument is not None, for a
boolean-valued field. -/
def optBool (key : String) : Option Bool → List (String × JsonValue)
  | some b => [(key, jbool b)]
  | none => []

/-- Field included exactly when the argument is not None, for a
string-list-valued field. -/
def optStrList (key : String) : Option (List String) → List (String × JsonValue)
  | some xs => [(key, jarr (xs.map jstr))]
  | none => []

/-- Field included exactly when the argument is not None, for an
integer-list-valued field. -/
def optIntList (key : String) : Option (List Int) → List (String × JsonValue)
  | some xs => [(key, jarr (xs.map jnum))]
  | none => []

/-- Field included exactly when the argument is truthy (Python `if x:`):
an explicitly supplied empty string is dropped like None. -/
def optStrTruthy (key : String) : Option String → List (String × JsonValue)
  | some s => if s.isEmpty then [] else [(key, jstr s)]
  | none => []

/-- Field included exactly when the argument is truthy: an explicitly
supplied zero is dropped like None. -/
def optIntTruthy (key : String) : Option Int → List (String × JsonValue)
  | some n => if n == 0 then [] else [(key, jnum n)]
  | none => []

/-- Field included exactly when the argument is truthy: an explicitly
supplied empty dict is dropped like None. -/
def optObjTruthy (key : String) : Option (List (String × JsonValue)) → List (String × JsonValue)
  | some o => if o.isEmpty then [] else [(key, jobj o)]
  | none => []

/-- Python truthiness of an optional integer argument: None and zero are
falsy. -/
def truthyOptInt : Option Int → Bool
  | none => false
  | some n => !(n == 0)

/-- Query construction of list_stories (src/main.py lines 133-149):
team_id, folder_id, per_page and page are included on `is not None`
checks, with per_page clamped to at most 500; tags, search, filter and
order are included on truthiness checks. -/
def list_stories_params (team_id folder_id per_page page : Option Int)
    (tags search filter order : Option String) : List (String × JsonValue) :=
  optInt "team_id" team_id ++
  optInt "folder_id" folder_id ++
  (match per_page with
   | some n => [("per_page", jnum (min n 500))]
   | none => []) ++
  optInt "page" page ++
  optStrTruthy "tags" tags ++
  optStrTruthy "search" search ++
  optStrTruthy "filter" filter ++
  optStrTruthy "order" order

/-- Query construction of search_stories (src/main.py lines 323-342): it
forwards query as the search filter to list_stories. In the source the
Python signature gives team_id the default None and per_page the default
20, so a call supplying only the required query argument corresponds to
team_id = none and per_page = some 20 here. -/
def search_stories_params (query : String) (team_id per_page : Option Int) :
    List (String × JsonValue) :=
  list_stories_params team_id none per_page none none (some query) none none

/-- Body construction of update_story (src/main.py lines 277-318): every
one of the twenty optional fields is included exactly on an
`is not None` check, under its remote name, in source order. -/
def update_story_data
    (name description : Option String)
    (add_tag_names remove_tag_names : Option (List String))
    (keep_events_for : Option Int)
    (disabled locked priority : Option Bool)
    (send_to_story_access_source send_to_story_access : Option String)
    (shared_team_slugs : Option (List String))
    (send_to_story_skill_use_requires_confirmation webhook_api_enabled : Option Bool)
    (team_id folder_id : Option Int)
    (change_control_enabled : Option Bool)
    (draft_id : Option Int)
    (monitor_failures : Option Bool)
    (entry_action_id : Option Int)
    (exit_action_ids : Option (List Int)) : List (String × JsonValue) :=
  optStr "name" name ++
  optStr "description" description ++
  optStrList "add_tag_names" add_tag_names ++
  optStrList "remove_tag_names" remove_tag_names ++
  optInt "keep_events_for" keep_events_for ++
  optBool "disabled" disabled ++
  optBool "locked" locked ++
  optBool "priority" priority ++
  optStr "send_to_story_access_source" send_to_story_access_source ++
  optStr "send_to_story_access" send_to_story_access ++
  optStrList "shared_team_slugs" shared_team_slugs ++
  optBool "send_to_story_skill_use_requires_confirmation" send_to_story_skill_use_requires_confirmation ++
  optBool "webhook_api_enabled" webhook_api_enabled ++
  optInt "team_id" team_id ++
  optInt "folder_id" folder_id ++
  optBool "change_control_enabled" change_control_enabled ++
  optInt "draft_id" draft_id ++
  optBool "monitor_failures" monitor_failures ++
  optInt "entry_action_id" entry_action_id ++
  optIntList "exit_action_ids" exit_action_ids

/-- Body construction of update_action (src/main.py lines 811-820): all
four optional fields are guarded by plain truthiness checks (`if name:`,
`if options:`, `if position:`, `if draft_id:`), so explicitly supplied
falsy values are dropped. -/
def update_action_data (name : Option String)
    (options position : Option (List (String × JsonValue)))
    (draft_id : Option Int) : List (String × JsonValue) :=
  optStrTruthy "name" name ++
  optObjTruthy "options" options ++
  optObjTruthy "position" position ++
  optIntTruthy "draft_id" draft_id

/-- Body construction of create_action (src/main.py lines 439-457): type,
name and story_id (converted to a string) are always present; draft_id is
added on an `is not None` check; options on a truthiness check; position
on a truthiness check with the default x=100, y=100 injected when absent
or falsy. -/
def create_action_data (story_id : Int) (action_type name : String)
    (options position : Option (List (String × JsonValue)))
    (draft_id : Option Int) : List (String × JsonValue) :=
  [("type", jstr action_type), ("name", jstr name), ("story_id", jstr (toString story_id))] ++
  optInt "draft_id" draft_id ++
  optObjTruthy "options" options ++
  (match position with
   | some p =>
     if p.isEmpty then [("position", jobj [("x", jnum 100), ("y", jnum 100)])]
     else [("position", jobj p)]
   | none => [("position", jobj [("x", jnum 100), ("y", jnum 100)])])

/-- Embedding of create_note (src/main.py lines 937-977). The guard
`if not story_id and not group_id:` is a truthiness test on both
identifiers; when it fires, a ValueError is raised before make_request is
reached, modelled by the error result (no Request is produced). Otherwise
the single POST request is returned: content always present, story_id and
group_id each on a truthiness check, position on a truthiness check with
the default x=0, y=0 injected when absent or falsy, draft_id on a
truthiness check. -/
def create_note (content : String) (story_id group_id : Option Int)
    (position : Option (List (String × JsonValue)))
    (draft_id : Option Int) : Except String Request :=
  if !truthyOptInt story_id && !truthyOptInt group_id then
    Except.error "Either story_id or group_id must be provided"
  else
    Except.ok
      ⟨"POST", "notes",
        some
          ([("content", jstr content)] ++
           optIntTruthy "story_id" story_id ++
           optIntTruthy "group_id" group_id ++
           (match position with
            | some p =>
              if p.isEmpty then [("position", jobj [("x", jnum 0), ("y", jnum 0)])]
              else [("position", jobj p)]
            | none => [("position", jobj [("x", jnum 0), ("y", jnum 0)])]) ++
           optIntTruthy "draft_id" draft_id)⟩

/-- Embedding of update_note (src/main.py lines 992-1019): content and
position are each included on an `is not None` check; when the resulting
body is empty a ValueError is raised before make_request is reached,
modelled by the error result (no Request is produced). -/
def update_note (note_id : Int) (content : Option String)
    (position : Option (List (String × JsonValue))) : Except String Request :=
  let data :=
    optStr "content" content ++
    (match position with
     | some p => [("position", jobj p)]
     | none => [])
  if data.isEmpty then
    Except.error "At least one of content or position must be provided"
  else
    Except.ok ⟨"PUT", "notes/" ++ toString note_id, some data⟩

/-- Errors surfaced by the multi-step workflows: a propagated make_request
failure, the ValueError raised by create_story_draft when no draft
appears (the spec's DraftCreationError), or a Python runtime type/key
error from indexing a response of an unexpected shape. -/
inductive WfError where
  | request (e : ReqError)
  | noDraftCreated
  | typeError
  deriving DecidableEq

/-- Extraction of a list of integer action ids from a JSON array, as the
sources array of an action is shaped on the wire. -/
def asIntList : List JsonValue → Option (List Int)
  | [] => some []
  | jnum n :: rest => (asIntList rest).map (fun xs => n :: xs)
  | _ => none

/-- Embedding of target_action.get("sources", []) in connect_actions
(src/main.py line 863): a missing key defaults to the empty list; a
present key must be an array of ids. -/
def get_sources (target_action : JsonValue) : Option (List Int) :=
  match target_action with
  | jobj fs =>
    match dictGet fs "sources" with
    | some (jarr xs) => asIntList xs
    | some _ => none
    | none => some []
  | _ => none

/-- Core of connect_actions (src/main.py lines 863-865): the source
action id is appended to the fetched sources list only if it is not
already present, and the resulting list is sent as source_ids. -/
def connect_sources (source_action_id : Int) (current_sources : List Int) : List Int :=
  if source_action_id ∈ current_sources then current_sources
  else current_sources ++ [source_action_id]

/-- The GET request fetching an action's current configuration
(src/main.py line 860). -/
def get_action_request (action_id : Int) : Request :=
  ⟨"GET", "actions/" ++ toString action_id, none⟩

/-- The PUT request writing the new source_ids list back to the target
action (src/main.py lines 868-876); draft_id is added on a truthiness
check. -/
def update_sources_request (target_action_id : Int) (srcs : List Int)
    (draft_id : Option Int) : Request :=
  ⟨"PUT", "actions/" ++ toString target_action_id,
    some ([("source_ids", jarr (srcs.map jnum))] ++ optIntTruthy "draft_id" draft_id)⟩

/-- Embedding of connect_actions (src/main.py lines 840-876) against an
oracle giving the remote response to each HTTP call in sequence: fetch
the target action, read its sources list, append the source id if absent,
and write the result back; returns the final result together with the
requests issued in order. -/
def connect_actions (source_action_id target_action_id : Int) (draft_id : Option Int)
    (oracle : Nat → Except ReqError JsonValue) :
    Except WfError JsonValue × List Request :=
  let req1 := get_action_request target_action_id
  match oracle 0 with
  | Except.error e => (Except.error (WfError.request e), [req1])
  | Except.ok target_action =>
    match get_sources target_action with
    | none => (Except.error WfError.typeError, [req1])
    | some current_sources =>
      let srcs := connect_sources source_action_id current_sources
      let req2 := update_sources_request target_action_id srcs draft_id
      match oracle 1 with
      | Except.error e => (Except.error (WfError.request e), [req1, req2])
      | Except.ok result => (Except.ok result, [req1, req2])

/-- The sentinel PUT adding the temporary draft-creation tag to the story
(src/main.py lines 916-918). -/
def add_tag_request (story_id : Int) : Request :=
  ⟨"PUT", "stories/" ++ toString story_id,
    some [("add_tag_names", jarr [jstr "draft-creation"])]⟩

/-- The GET request listing a story's drafts (src/main.py line 888). -/
def list_drafts_request (story_id : Int) : Request :=
  ⟨"GET", "stories/" ++ toString story_id ++ "/drafts", none⟩

/-- The reversal PUT removing the temporary tag, scoped to the new draft
by carrying its id (src/main.py lines 924-927). -/
def remove_tag_request (story_id : Int) (draft_id_value : JsonValue) : Request :=
  ⟨"PUT", "stories/" ++ toString story_id,
    some [("remove_tag_names", jarr [jstr "draft-creation"]), ("draft_id", draft_id_value)]⟩

/-- Python truthiness of a JSON value, as applied by
`if drafts.get("drafts"):` in create_story_draft. -/
def jsonTruthy : JsonValue → Bool
  | jnull => false
  | jbool b => b
  | jnum n => !(n == 0)
  | jstr s => !s.isEmpty
  | jarr xs => !xs.isEmpty
  | jobj fs => !fs.isEmpty

/-- Embedding of create_story_draft (src/main.py lines 904-933) against
an oracle giving the remote response to each HTTP call in sequence.
Control flow of the source: issue the sentinel add-tag PUT; on success
list the story's drafts; if the drafts field is missing or falsy raise
ValueError (noDraftCreated) with no further request; otherwise take the
first draft, issue the reversal PUT carrying that draft's id, and return
the draft. Any make_request failure propagates (the surrounding
try/except logs and re-raises). Indexing a truthy non-array drafts field
or a first draft that is not an object with an id would raise a Python
runtime error, modelled as typeError. Returns the result together with
the requests issued in order. -/
def create_story_draft (story_id : Int) (oracle : Nat → Except ReqError JsonValue) :
    Except WfError JsonValue × List Request :=
  let req1 := add_tag_request story_id
  match oracle 0 with
  | Except.error e => (Except.error (WfError.request e), [req1])
  | Except.ok _ =>
    let req2 := list_drafts_request story_id
    match oracle 1 with
    | Except.error e => (Except.error (WfError.request e), [req1, req2])
    | Except.ok drafts =>
      match drafts with
      | jobj fs =>
        match dictGet fs "drafts" with
        | some (jarr (latest :: _)) =>
          match latest with
          | jobj lfs =>
            match dictGet lfs "id" with
            | some idv =>
              let req3 := remove_tag_request story_id idv
              match oracle 2 with
              | Except.error e => (Except.error (WfError.request e), [req1, req2, req3])
              | Except.ok _ => (Except.ok (jobj lfs), [req1, req2, req3])
            | none => (Except.error WfError.typeError, [req1, req2])
          | _ => (Except.error WfError.typeError, [req1, req2])
        | some (jarr []) => (Except.error WfError.noDraftCreated, [req1, req2])
        | some v =>
          if jsonTruthy v then (Except.error WfError.typeError, [req1, req2])
          else (Except.error WfError.noDraftCreated, [req1, req2])
        | none => (Except.error WfError.noDraftCreated, [req1, req2])
      | _ => (Except.error WfError.typeError, [req1, req2])

/-- Claim C1: evaluation of the payload builders at the decisive inputs.
The update_story builder, whose fields are guarded by `is not None`
checks, carries disabled: false when disabled is explicitly supplied as
false and carries no disabled key when it is omitted — the claim's
update_story example holds. But the update_action builder guards every
field with a plain truthiness check, so an explicitly supplied
draft_id = 0 or options = empty dict is dropped from the payload,
refuting the claim's universal statement for every wrapper and
parameter. -/
theorem truthiness_drops_explicit_falsy_values :
    dictGet (update_story_data none none none none none (some false) none none none none
      none none none none none none none none none none) "disabled" = some (jbool false) ∧
    update_story_data none none none none none none none none none none
      none none none none none none none none none none = [] ∧
    dictGet (update_action_data (some "renamed") none none (some 0)) "draft_id" = none ∧
    dictGet (update_action_data none (some []) none none) "options" = none :=
  ⟨rfl, rfl, rfl, rfl⟩

/-- Claim C2: evaluation of make_request's response handling. A 200
response with a JSON body is returned exactly as sent; but a 204 success
response with an empty body is not turned into an empty object — the
unconditional response.json() call raises a JSON decode error, which
make_request re-raises, refuting the claim's empty-body clause. -/
theorem make_request_roundtrip_and_empty_body :
    make_request_response 200 (RespBody.json (jobj [("id", jnum 1)])) =
      Except.ok (jobj [("id", jnum 1)]) ∧
    make_request_response 204 RespBody.empty = Except.error ReqError.jsonDecodeError :=
  ⟨rfl, rfl⟩

/-- Claim C7: create_note called with neither story_id nor group_id, and
update_note called with neither content nor position, each fail with the
ValidationError before any HTTP request is issued (the error result is
produced without a Request ever being constructed). -/
theorem note_validation_before_request (content : String)
    (pos : Option (List (String × JsonValue))) (dr : Option Int) (note_id : Int) :
    create_note content none none pos dr =
      Except.error "Either story_id or group_id must be provided" ∧
    update_note note_id none none =
      Except.error "At least one of content or position must be provided" :=
  ⟨rfl, rfl⟩

/-- Claim C10: create_note called with content and an explicitly supplied
story_id = 0 (or group_id = 0) is rejected with the ValidationError and
no HTTP request is issued, because the presence check
`if not story_id and not group_id:` is a truthiness test under which zero
counts as absent. -/
theorem create_note_zero_id_rejected :
    create_note "x" (some 0) none none none =
      Except.error "Either story_id or group_id must be provided" ∧
    create_note "x" none (some 0) none none =
      Except.error "Either story_id or group_id must be provided" :=
  ⟨rfl, rfl⟩

/-- Claim C5: whatever the other arguments, when an integer per_page is
supplied to list_stories the outgoing query carries per_page with the
value min(per_page, 500); in particular per_page = 1000 is sent as
500. -/
theorem list_stories_clamps_per_page (team_id folder_id page : Option Int) (n : Int)
    (tags search filter order : Option String) :
    dictGet (list_stories_params team_id folder_id (some n) page tags search filter order)
      "per_page" = some (jnum (min n 500)) ∧
    dictGet (list_stories_params none none (some 1000) none none none none none)
      "per_page" = some (jnum 500) := by
  constructor
  · cases team_id <;> cases folder_id <;>
      simp [list_stories_params, optInt, dictGet, List.find?]
  · rfl

/-- Claim C4 counterexample: when the fetched sources list already
contains the source id twice, connect_actions leaves it unchanged (the
id is already present, so nothing is appended) and the outgoing
source_ids list contains the id twice, not exactly once — refuting the
claim's quantification over every fetched source list. -/
theorem connect_sources_duplicate_fetched_not_once :
    (connect_actions 7 9 none
      (fun _ => Except.ok (jobj [("sources", jarr [jnum 7, jnum 7])]))).2 =
      [get_action_request 9, update_sources_request 9 [7, 7] none] ∧
    List.count (7 : Int) [7, 7] ≠ 1 := by
  constructor
  · rfl
  · decide

/-- Claim C4 as amended: the source id is appended only if not already
present, so the write is idempotent (a second application of the append
step to its own output changes nothing), the outgoing list always
contains the id, and whenever the fetched list contains the id at most
once — in particular when it is duplicate-free — the outgoing list after
one or two runs contains it exactly once. -/
theorem connect_sources_idempotent (s : Int) (L : List Int) :
    connect_sources s (connect_sources s L) = connect_sources s L ∧
    s ∈ connect_sources s L ∧
    (List.count s L ≤ 1 → List.count s (connect_sources s L) = 1) := by
  unfold connect_sources
  by_cases h : s ∈ L
  · simp [h]
    intro hc
    have h1 : 0 < List.count s L := List.count_pos_iff.mpr h
    omega
  · simp [h]
    intro _
    exact List.count_eq_zero_of_not_mem h

/-- Witness for the amended claim C4 at a concrete input. -/
theorem connect_sources_idempotent_witness :
    connect_sources 3 (connect_sources 3 []) = connect_sources 3 [] ∧
    List.count (3 : Int) (connect_sources 3 []) = 1 :=
  ⟨(connect_sources_idempotent 3 []).1, (connect_sources_idempotent 3 []).2.2 (by decide)⟩

/-- Claim C6 counterexample: with a base URL carrying two trailing
slashes and an endpoint carrying two leading slashes, make_request's
rstrip/lstrip construction strips all of them, which differs from
stripping exactly one slash from each side as the claim states. -/
theorem make_request_url_strips_all_slashes_cex :
    make_request_url ['b', '/', '/'] ['/', '/', 'e'] ≠
      spec_url ['b', '/', '/'] ['/', '/', 'e'] := by decide

/-- Helper: when a list starts with at most one character satisfying the
predicate, dropping the whole satisfying prefix is the same as dropping
at most one leading element. -/
theorem dropWhile_of_takeWhile_le_one (p : Char → Bool) (s : List Char)
    (h : (s.takeWhile p).length ≤ 1) :
    s.dropWhile p = match s with
      | c :: rest => if p c then rest else c :: rest
      | [] => [] := by
  cases s with
  | nil => simp [List.dropWhile]
  | cons c rest =>
    by_cases hc : p c
    · simp only [List.dropWhile, hc, if_pos]
      cases rest with
      | nil => simp [List.dropWhile]
      | cons d t =>
        have hd : p d = false := by
          by_contra hd'
          have hdt : p d = true := by
            cases hpd : p d with
            | true => rfl
            | false => exact absurd hpd hd'
          simp [List.takeWhile, hc, hdt] at h
        simp [List.dropWhile, hd]
    · have hc' : p c = false := by
        cases hpc : p c with
        | true => exact absurd hpc hc
        | false => rfl
      simp [List.dropWhile, hc']

/-- Helper: on an endpoint with at most one leading slash, Python lstrip
of the slash agrees with stripping exactly one leading slash. -/
theorem lstrip_agreement (s : List Char)
    (h : (s.takeWhile (· == '/')).length ≤ 1) :
    pyLstripSlash s = spec_strip_one_leading s := by
  have hds := dropWhile_of_takeWhile_le_one (· == '/') s h
  cases s with
  | nil => rfl
  | cons c rest =>
    simpa [pyLstripSlash, spec_strip_one_leading] using hds

/-- Helper: stripping exactly one trailing slash is stripping exactly one
leading slash of the reversal, reversed back. -/
theorem strip_one_trailing_via_reverse (s : List Char) :
    spec_strip_one_trailing s = (spec_strip_one_leading s.reverse).reverse := by
  induction s using List.reverseRecOn with
  | nil => rfl
  | append_singleton l a ih =>
    rw [spec_strip_one_trailing]
    rw [List.getLast?_concat]
    rw [List.reverse_append]
    simp only [List.reverse_cons, List.reverse_nil, List.nil_append, List.singleton_append]
    rw [spec_strip_one_leading]
    by_cases ha : a = '/'
    · subst ha
      simp [List.dropLast_concat]
    · have ha' : (a == '/') = false := by
        simp [ha]
      simp [ha, ha']

/-- Helper: on a base with at most one trailing slash, Python rstrip of
the slash agrees with stripping exactly one trailing slash. -/
theorem rstrip_agreement (s : List Char)
    (h : (s.reverse.takeWhile (· == '/')).length ≤ 1) :
    pyRstripSlash s = spec_strip_one_trailing s := by
  rw [strip_one_trailing_via_reverse]
  unfold pyRstripSlash
  rw [show s.reverse.dropWhile (· == '/') = pyLstripSlash s.reverse from rfl]
  rw [lstrip_agreement s.reverse h]

/-- Claim C6 as amended: make_request strips all trailing slashes from
the base URL and all leading slashes from the endpoint before joining
with a single slash; whenever the base carries at most one trailing slash
and the endpoint at most one leading slash — the shapes the configuration
invariant expects — this coincides with stripping exactly one slash from
each side. -/
theorem make_request_url_single_slash_agreement (base endpoint : List Char)
    (hb : (base.reverse.takeWhile (· == '/')).length ≤ 1)
    (he : (endpoint.takeWhile (· == '/')).length ≤ 1) :
    make_request_url base endpoint = spec_url base endpoint := by
  unfold make_request_url spec_url
  rw [rstrip_agreement base hb, lstrip_agreement endpoint he]

/-- Witness for the amended claim C6 at a concrete input. -/
theorem make_request_url_single_slash_agreement_witness :
    (['a', 'p', 'i', '/'].reverse.takeWhile (· == '/')).length ≤ 1 ∧
    (['/', 'v', '1'].takeWhile (· == '/')).length ≤ 1 ∧
    make_request_url ['a', 'p', 'i', '/'] ['/', 'v', '1'] =
      spec_url ['a', 'p', 'i', '/'] ['/', 'v', '1'] :=
  ⟨by decide, by decide,
   make_request_url_single_slash_agreement ['a', 'p', 'i', '/'] ['/', 'v', '1']
     (by decide) (by decide)⟩

/-- Claim C3: when the sentinel add-tag update succeeds but the draft
listing carries an empty drafts array, create_story_draft fails with the
draft-creation error, issues exactly the two requests (the sentinel PUT
and the draft listing GET) and in particular never issues the tag-removal
request, returning no synthetic draft. -/
theorem create_story_draft_empty_drafts_fails (story_id : Int)
    (oracle : Nat → Except ReqError JsonValue) (r0 : JsonValue)
    (fs : List (String × JsonValue))
    (h0 : oracle 0 = Except.ok r0)
    (h1 : oracle 1 = Except.ok (jobj fs))
    (hd : dictGet fs "drafts" = some (jarr [])) :
    create_story_draft story_id oracle =
      (Except.error WfError.noDraftCreated,
       [add_tag_request story_id, list_drafts_request story_id]) := by
  simp [create_story_draft, h0, h1, hd]

/-- Witness for claim C3 at a concrete input. -/
theorem create_story_draft_empty_drafts_fails_witness :
    create_story_draft 42
      (fun n => if n = 0 then Except.ok (jobj []) else Except.ok (jobj [("drafts", jarr [])])) =
      (Except.error WfError.noDraftCreated, [add_tag_request 42, list_drafts_request 42]) :=
  create_story_draft_empty_drafts_fails 42 _ (jobj []) [("drafts", jarr [])] rfl rfl rfl

/-- Claim C9: on the success path, create_story_draft takes the first
element of the listed drafts as the new draft, issues the tag-removal
request with a body carrying draft_id equal to that draft's id — scoping
the reversal to the new draft rather than the live story — and returns
that draft object. -/
theorem create_story_draft_success_scoped_reversal (story_id : Int)
    (oracle : Nat → Except ReqError JsonValue) (r0 r2 : JsonValue)
    (fs lfs : List (String × JsonValue)) (rest : List JsonValue) (idv : JsonValue)
    (h0 : oracle 0 = Except.ok r0)
    (h1 : oracle 1 = Except.ok (jobj fs))
    (hd : dictGet fs "drafts" = some (jarr (jobj lfs :: rest)))
    (hid : dictGet lfs "id" = some idv)
    (h2 : oracle 2 = Except.ok r2) :
    create_story_draft story_id oracle =
      (Except.ok (jobj lfs),
       [add_tag_request story_id, list_drafts_request story_id,
        remove_tag_request story_id idv]) := by
  simp [create_story_draft, h0, h1, hd, hid, h2]

/-- Witness for claim C9 at a concrete input. -/
theorem create_story_draft_success_scoped_reversal_witness :
    create_story_draft 42
      (fun n =>
        if n = 0 then Except.ok (jobj [])
        else if n = 1 then Except.ok (jobj [("drafts", jarr [jobj [("id", jnum 7)]])])
        else Except.ok jnull) =
      (Except.ok (jobj [("id", jnum 7)]),
       [add_tag_request 42, list_drafts_request 42, remove_tag_request 42 (jnum 7)]) :=
  create_story_draft_success_scoped_reversal 42 _ (jobj []) jnull
    [("drafts", jarr [jobj [("id", jnum 7)]])] [("id", jnum 7)] [] (jnum 7)
    rfl rfl rfl rfl rfl

/-- Claim C8 counterexample: search_stories called with only its required
query argument (the source signature defaults team_id to None and
per_page to 20) produces an outgoing query that also carries
per_page: 20 — an injected default that is neither a required field nor
among the documented position / content-type defaults, refuting the
claim as stated. -/
theorem search_stories_injects_per_page_default :
    search_stories_params "x" none (some 20) =
      [("per_page", jnum 20), ("search", jstr "x")] := rfl

/-- Claim C8 as amended: with only required arguments supplied, the
payload contains exactly the required fields plus the documented
defaults — position x=100, y=100 for create_action and x=0, y=0 for
create_note — and, for the convenience wrappers, the defaults baked into
their source signatures, such as per_page = 20 injected by
search_stories. No null fields and nothing else is added. -/
theorem required_only_payloads (sid : Int) (atype aname content q : String) (nsid : Int)
    (h : nsid ≠ 0) (hq : q ≠ "") :
    create_action_data sid atype aname none none none =
      [("type", jstr atype), ("name", jstr aname), ("story_id", jstr (toString sid)),
       ("position", jobj [("x", jnum 100), ("y", jnum 100)])] ∧
    create_note content (some nsid) none none none =
      Except.ok ⟨"POST", "notes",
        some [("content", jstr content), ("story_id", jnum nsid),
          ("position", jobj [("x", jnum 0), ("y", jnum 0)])]⟩ ∧
    search_stories_params q none (some 20) =
      [("per_page", jnum 20), ("search", jstr q)] := by
  refine ⟨rfl, ?_, ?_⟩
  · have hb : (nsid == 0) = false := by simpa using h
    simp [create_note, truthyOptInt, optIntTruthy, hb]
  · have hqb : q.isEmpty = false := by
      rw [Bool.eq_false_iff]
      intro hcontra
      exact hq ((String.isEmpty_iff q).mp hcontra)
    simp [search_stories_params, list_stories_params, optInt, optStrTruthy, hqb]

/-- Witness for the amended claim C8 at a concrete input. -/
theorem required_only_payloads_witness :
    (5 : Int) ≠ 0 ∧ ("find me" : String) ≠ "" ∧
    create_note "note body" (some 5) none none none =
      Except.ok ⟨"POST", "notes",
        some [("content", jstr "note body"), ("story_id", jnum 5),
          ("position", jobj [("x", jnum 0), ("y", jnum 0)])]⟩ :=
  ⟨by decide, by decide,
   (required_only_payloads 1 "Agents::WebhookAgent" "hook" "note body" "find me" 5
     (by decide) (by decide)).2.1⟩
